import Mathlib

/-
  Verification development for the livereload server module
  (livereload/server.py): the shell task runner, the script-injecting
  output transform, and the BaseServer watch/application/serve glue.
  The watcher module itself is not among the sources; where a claim
  depends on it, the relevant behaviour is modelled from the spec and
  marked as such in the doc comments.

  Conventions of the embedding:
  - Python byte strings handled by the task runner are modelled as
    Lean `String` (the PY3 `stdout.decode()` step is the identity in
    this model); the byte chunks handled by the output transform are
    modelled as `List Nat` (one `Nat` per byte).
  - The file system is an explicit state: a set of existing directory
    paths plus a map from file paths to contents.
  - Spawning an external process is modelled by a `SpawnResult` input
    describing what the operating system did (`Popen` raised an
    `OSError`, or the process ran and produced stdout/stderr/exit code).
  - Raising an exception is modelled by the `Except` error channel of
    `run_shell`; returning a value is `Except.ok`.
-/

/-! ## Command arguments and shlex tokenization -/

/-- A Python command argument: either a single string or a list/tuple
of strings (the two shapes `shell` accepts for `cmd`). -/
inductive CmdArg where
  | str (s : String)
  | list (args : List String)
  deriving DecidableEq

/-- Tokenizer state of the POSIX-mode `shlex` scanner: outside quotes,
after a backslash, inside single quotes, inside double quotes, after a
backslash inside double quotes. -/
inductive ShlexState where
  | normal
  | escaped
  | single
  | double
  | doubleEscaped
  deriving DecidableEq

/-- Whitespace characters that separate tokens in `shlex`. -/
def shlexWhitespace (c : Char) : Bool :=
  c = ' ' || c = '\t' || c = '\r' || c = '\n'

/-- Modelled from the Python standard library: the scanner of
`shlex.split` in POSIX mode (whitespace splitting, single quotes
literal, double quotes with backslash escaping of `"` and `\\`,
backslash escaping outside quotes).  `tok = none` means no token has
been started; unterminated quotes or a trailing escape end the current
token (the stdlib raises there, a case `shell` never relies on). -/
def shlexRun (st : ShlexState) (tok : Option (List Char)) :
    List Char → List (List Char)
  | [] =>
    match tok with
    | none => []
    | some t => [t]
  | c :: rest =>
    match st with
    | ShlexState.normal =>
      if shlexWhitespace c then
        (match tok with
         | none => shlexRun ShlexState.normal none rest
         | some t => t :: shlexRun ShlexState.normal none rest)
      else if c = '\\' then
        shlexRun ShlexState.escaped (some (tok.getD [])) rest
      else if c = '\'' then
        shlexRun ShlexState.single (some (tok.getD [])) rest
      else if c = '"' then
        shlexRun ShlexState.double (some (tok.getD [])) rest
      else
        shlexRun ShlexState.normal (some (tok.getD [] ++ [c])) rest
    | ShlexState.escaped =>
      shlexRun ShlexState.normal (some (tok.getD [] ++ [c])) rest
    | ShlexState.single =>
      if c = '\'' then shlexRun ShlexState.normal tok rest
      else shlexRun ShlexState.single (some (tok.getD [] ++ [c])) rest
    | ShlexState.double =>
      if c = '"' then shlexRun ShlexState.normal tok rest
      else if c = '\\' then shlexRun ShlexState.doubleEscaped tok rest
      else shlexRun ShlexState.double (some (tok.getD [] ++ [c])) rest
    | ShlexState.doubleEscaped =>
      if c = '"' || c = '\\' then
        shlexRun ShlexState.double (some (tok.getD [] ++ [c])) rest
      else
        shlexRun ShlexState.double (some (tok.getD [] ++ ['\\', c])) rest

/-- Modelled from the Python standard library: `shlex.split`. -/
def shlexSplit (s : String) : List String :=
  (shlexRun ShlexState.normal none s.toList).map fun cs => String.mk cs

/-! ## File-system state -/

/-- Explicit file-system state: the set of existing directories and an
association of file paths to their contents. -/
structure FS where
  dirs : List String
  files : List (String × String)
  deriving DecidableEq

/-- Strip trailing slashes (the final step of `posixpath.dirname`). -/
def rstripSlashes (cs : List Char) : List Char :=
  ((cs.reverse).dropWhile fun c => c = '/').reverse

/-- Modelled from the Python standard library: `os.path.dirname` for
POSIX paths.  The head is everything up to and including the last
slash; trailing slashes are stripped unless the head is all slashes. -/
def dirname (p : String) : String :=
  let cs := p.toList
  let afterLast := (cs.reverse.takeWhile fun c => c ≠ '/').length
  let head := cs.take (cs.length - afterLast)
  if head ≠ [] ∧ head.any (fun c => c ≠ '/') then
    String.mk (rstripSlashes head)
  else
    String.mk head

/-- Does this directory exist (`os.path.isdir`)? -/
def FS.isdir (fs : FS) (d : String) : Bool :=
  fs.dirs.contains d

/-- The chain of a directory and its ancestors, outermost last; fuel
bounds the iteration of `dirname`. -/
def parentChain : Nat → String → List String
  | 0, _ => []
  | n + 1, d =>
    if d = "" then []
    else if dirname d = d then [d]
    else d :: parentChain n (dirname d)

/-- Modelled from the Python standard library: `os.makedirs` creates
the directory and any missing ancestors. -/
def FS.makedirs (fs : FS) (d : String) : FS :=
  { fs with dirs := parentChain (d.length + 1) d ++ fs.dirs }

/-- Current contents of a file, if it exists. -/
def FS.readFile (fs : FS) (p : String) : Option String :=
  (fs.files.find? fun kv => kv.1 == p).map fun kv => kv.2

/-- Replace the contents of a file (create it if absent). -/
def FS.setFile (fs : FS) (p v : String) : FS :=
  { fs with files := (p, v) :: fs.files.filter fun kv => kv.1 != p }

/-- Models `open(p, mode)` followed by `f.write(data)` for the two
modes the `shell` contract documents: `"a"` appends, `"w"` (the
default, and any other truncating mode) replaces. -/
def FS.writeFile (fs : FS) (p mode data : String) : FS :=
  if mode = "a" then
    fs.setFile p ((fs.readFile p).getD "" ++ data)
  else
    fs.setFile p data

/-- `os.devnull` on POSIX. -/
def devNull : String := "/dev/null"

/-! ## The shell task runner (`shell` / `run_shell`) -/

/-- The `errno` module's `ENOENT` (`os.errno` resolves to the `errno`
module on the Python versions this code targets). -/
def ENOENT : Nat := 2

/-- An `OSError` raised by `Popen`, carrying its error number. -/
structure OSErr where
  errno : Nat
  deriving DecidableEq

/-- What the operating system did when `run_shell` called `Popen` and
`communicate`: either `Popen` raised an `OSError`, or the process ran
and produced the given stdout, stderr and exit status. -/
inductive SpawnResult where
  | oserror (e : OSErr)
  | ran (stdout : String) (stderr : String) (returncode : Int)
  deriving DecidableEq

/-- Messages `run_shell` sends to `logger.error`. -/
inductive LogEntry where
  | oserrorLogged (errno : Nat)
  | notInstalledHint (exe : String)
  | stderrLogged (s : String)
  deriving DecidableEq

/-- The value `run_shell` returns: the caught `OSError` object, the
non-empty stderr bytes, or the implicit `None` after the output file
was written. -/
inductive RunRet where
  | errObj (e : OSErr)
  | errOutput (stderr : String)
  | retNone
  deriving DecidableEq

/-- The closure state captured by the `run_shell` closure that `shell`
returns: the resolved command, output path, mode, working directory
and shell flag. -/
structure TaskCfg where
  cmd : CmdArg
  output : String
  mode : String
  cwd : Option String
  shell : Bool
  deriving DecidableEq

/-- Python `cmd[0]`: the first element of a list command, or the first
character of a string command (as logged by the not-installed hint).
An empty command would raise `IndexError` in Python; the model returns
`""` there, a case no claim touches. -/
def cmdHead : CmdArg → String
  | CmdArg.list args => args.headD ""
  | CmdArg.str s => String.mk (s.toList.take 1)

/-- The body of `livereload.server.shell` up to and including building
the closure: resolve the output path (`os.devnull` when falsy, else
create the missing parent directory), tokenize a string command with
`shlex.split` unless the `shell` flag is set, and capture everything
in the returned task configuration.  The returned closure itself is
`run_shell` below, applied to this configuration. -/
def shell (cmd : CmdArg) (output : Option String := none)
    (mode : String := "w") (cwd : Option String := none)
    (shell : Bool := false) : FS → TaskCfg × FS := fun fs =>
  let outFs : String × FS :=
    match output with
    | none => (devNull, fs)
    | some o =>
      if o = "" then (devNull, fs)
      else
        let folder := dirname o
        if folder ≠ "" ∧ ¬ fs.isdir folder then (o, fs.makedirs folder)
        else (o, fs)
  let cmdR : CmdArg :=
    match cmd with
    | CmdArg.list args => CmdArg.list args
    | CmdArg.str s => if shell then CmdArg.str s
                      else CmdArg.list (shlexSplit s)
  (⟨cmdR, outFs.1, mode, cwd, shell⟩, outFs.2)

/-- The `run_shell` closure returned by `shell`: spawn the process; on
`OSError` log it (plus the not-installed hint naming `cmd[0]` when the
error is `ENOENT`) and return the exception object; on non-empty
stderr log it and return it; otherwise write the captured stdout to
the output file in the configured mode and return `None`.  The
`Except` layer records whether the invocation raised: every branch is
`Except.ok`, i.e. `run_shell` never lets an exception escape. -/
def run_shell (cfg : TaskCfg) (res : SpawnResult) (fs : FS) :
    Except OSErr RunRet × FS × List LogEntry :=
  match res with
  | SpawnResult.oserror e =>
    let log :=
      if e.errno = ENOENT then
        [LogEntry.oserrorLogged e.errno,
         LogEntry.notInstalledHint (cmdHead cfg.cmd)]
      else
        [LogEntry.oserrorLogged e.errno]
    (Except.ok (RunRet.errObj e), fs, log)
  | SpawnResult.ran stdout stderr _rc =>
    if stderr ≠ "" then
      (Except.ok (RunRet.errOutput stderr), fs, [LogEntry.stderrLogged stderr])
    else
      (Except.ok RunRet.retNone, fs.writeFile cfg.output cfg.mode stdout, [])

/-! ## The script-injecting output transform (`LiveScriptInjector`) -/

/-- The marker byte sequence `HEAD_END = b'</head>'`, one `Nat` per
byte. -/
def headEnd : List Nat := [60, 47, 104, 101, 97, 100, 62]

/-- Python `HEAD_END in chunk`: does the marker occur as a contiguous
subsequence of the chunk? -/
def hasHeadEnd : List Nat → Bool
  | [] => false
  | a :: rest => headEnd.isPrefixOf (a :: rest) || hasHeadEnd rest

/-- Python `chunk.replace(HEAD_END, new)`: replace every
(left-to-right, non-overlapping) occurrence of the marker by `new`. -/
def pyReplace (new : List Nat) (s : List Nat) : List Nat :=
  match s with
  | [] => []
  | a :: rest =>
    if headEnd.isPrefixOf (a :: rest) then
      new ++ pyReplace new (rest.drop 6)
    else
      a :: pyReplace new rest
termination_by s.length
decreasing_by
  all_goals simp [List.length_drop]
  omega

/-- The number of (left-to-right, non-overlapping) occurrences of the
marker that `pyReplace` replaces. -/
def countHeadEnd (s : List Nat) : Nat :=
  match s with
  | [] => 0
  | a :: rest =>
    if headEnd.isPrefixOf (a :: rest) then
      countHeadEnd (rest.drop 6) + 1
    else
      countHeadEnd rest
termination_by s.length
decreasing_by
  all_goals simp [List.length_drop]
  omega

/-- The response headers as the transform sees them: the
`Content-Length` entry when present (already parsed as an integer, as
`int(headers['Content-Length'])` does), plus all other headers, which
the transform never touches. -/
structure RespHeaders where
  contentLength : Option Nat
  rest : List (String × String)
  deriving DecidableEq

/-- `LiveScriptInjector.transform_first_chunk`: when the chunk
contains `</head>`, replace every occurrence by the script followed by
`</head>` and, when a `Content-Length` header is present, add one
script length to it; otherwise return status, headers and chunk
unchanged.  The `finishing` argument is unused, as in the source. -/
def transform_first_chunk (script : List Nat) (status_code : Nat)
    (headers : RespHeaders) (chunk : List Nat) (_finishing : Bool) :
    Nat × RespHeaders × List Nat :=
  if hasHeadEnd chunk then
    let chunk2 := pyReplace (script ++ headEnd) chunk
    let headers2 :=
      match headers.contentLength with
      | some n => { headers with contentLength := some (n + script.length) }
      | none => headers
    (status_code, headers2, chunk2)
  else
    (status_code, headers, chunk)

/-! ## The watcher-facing data model

The watcher module (`livereload/watcher.py`) and the handlers module
are not among the sources; the structures below model, from the spec,
exactly what the server module hands to them: an ordered registry of
watch entries (§4.1: `add` appends, no dedup) and the pending-change
queue `_changes` that `serve` appends its heartbeat record to. -/

/-- A delay policy of a watch entry (§3): reload immediately, after N
seconds, or never (`'forever'`). -/
inductive Delay where
  | immediate
  | seconds (n : Nat)
  | forever
  deriving DecidableEq

/-- A registered task: either the shell runner produced by `shell`
(represented by its captured configuration) or an arbitrary callable,
abstracted by the type parameter. -/
inductive TaskV (κ : Type) where
  | shellTask (cfg : TaskCfg)
  | callback (f : κ)
  deriving DecidableEq

/-- A watch-registry entry: pattern, optional task, optional delay
(`delay=None` is passed through unchanged by `BaseServer.watch`). -/
structure WatchEntry (κ : Type) where
  pattern : String
  task : Option (TaskV κ)
  delay : Option Delay
  deriving DecidableEq

/-- Modelled from the spec: the watcher's state as the server module
uses it — the ordered entry registry (§4.1) and the `_changes` queue
of pending (path, delay) change records. -/
structure WatcherModel (κ : Type) where
  entries : List (WatchEntry κ)
  changes : List (String × Nat)
  deriving DecidableEq

/-- The `BaseServer` state the claims touch: whether a WSGI `app` was
given (its truthiness drives the `debug` default), the static root,
and the watcher. -/
structure ServerState (κ : Type) where
  appSet : Bool
  root : Option String
  watcher : WatcherModel κ
  deriving DecidableEq

/-- Modelled from the spec: `Watcher.watch` / §4.1 `add` appends
exactly one entry to the registry; nothing is merged or deduplicated. -/
def watcherAdd (st : ServerState κ) (p : String) (t : Option (TaskV κ))
    (d : Option Delay) : ServerState κ :=
  { st with watcher :=
      { st.watcher with entries := st.watcher.entries ++ [⟨p, t, d⟩] } }

/-- The `func` argument of `BaseServer.watch`: a string of shell
command, or a callable (abstracted by the type parameter). -/
inductive FuncArg (κ : Type) where
  | str (s : String)
  | call (f : κ)
  deriving DecidableEq

/-- `BaseServer.watch`: a string `func` is resolved once, at
registration time, into `shell(func)` (with all defaults, so the
string is tokenized and the output goes to `os.devnull`); a callable
is registered as-is; either way one entry is handed to
`self.watcher.watch`. -/
def BaseServer.watch (st : ServerState κ) (fs : FS) (filepath : String)
    (func : Option (FuncArg κ) := none) (delay : Option Delay := none) :
    ServerState κ × FS :=
  match func with
  | some (FuncArg.str s) =>
    let pr := shell (CmdArg.str s) none "w" none false fs
    (watcherAdd st filepath (some (TaskV.shellTask pr.1)) delay, pr.2)
  | some (FuncArg.call f) =>
    (watcherAdd st filepath (some (TaskV.callback f)) delay, fs)
  | none =>
    (watcherAdd st filepath none delay, fs)

/-! ## Port topology (`BaseServer.application` / `BaseServer.serve`) -/

/-- A route installed on a listening application: one of the three
reload-channel handlers, or a content handler from
`get_web_handlers()` (abstracted by the type parameter). -/
inductive RouteK (ω : Type) where
  | livereloadWS
  | forceReload
  | livereloadJS
  | web (w : ω)
  deriving DecidableEq

/-- One `web.Application(...).listen(port, address=host)` call: its
route table, port, bind address, `debug` setting and, when
`add_transform` was called on it, the injected script of its
`ConfiguredTransform`. -/
structure ListenerM (ω : Type) where
  handlers : List (RouteK ω)
  port : Nat
  address : String
  debug : Option Bool
  transformScript : Option String
  deriving DecidableEq

/-- A default listener, used only as the fallback of `List.getD` in
statements about concrete listener lists. -/
def dfltListener : ListenerM ω :=
  ⟨[], 0, "", none, none⟩

/-- The script of `ConfiguredTransform`, formatted with the host and
the live port. -/
def liveScriptFor (host : String) (liveport : Nat) : String :=
  "<script src=\"http://" ++ host ++ ":" ++ toString liveport ++
    "/livereload.js\"></script>"

/-- The three reload-channel routes, in source order. -/
def liveHandlers : List (RouteK ω) :=
  [RouteK.livereloadWS, RouteK.forceReload, RouteK.livereloadJS]

/-- `BaseServer.application`: default `liveport` to `port`; default
`debug` to true when a WSGI app is present; then either build one
application carrying the reload-channel routes followed by the content
routes, or two applications, the content one on `port` and the
reload-channel one on `liveport`, both bound to `host`.  The script
transform is added to the content-carrying application. -/
def application (appSet : Bool) (webHandlers : List ω) (port : Nat)
    (host : String) (liveport : Option Nat := none)
    (debug : Option Bool := none) : List (ListenerM ω) :=
  let lp := liveport.getD port
  let dbg : Option Bool :=
    match debug, appSet with
    | none, true => some true
    | d, _ => d
  let script := liveScriptFor host lp
  if lp = port then
    [⟨liveHandlers ++ webHandlers.map RouteK.web, port, host, dbg,
      some script⟩]
  else
    [⟨webHandlers.map RouteK.web, port, host, dbg, some script⟩,
     ⟨liveHandlers, lp, host, some false, none⟩]

/-- `BaseServer.serve` up to the point where the I/O loop starts:
default the host, set the root if given, build the listening
applications, and append the `('__livereload__', restart_delay)`
heartbeat record to the watcher's pending-change queue.  Returns the
updated server state and the listeners. -/
def serve (st : ServerState κ) (webHandlers : List ω)
    (port : Nat := 5500) (liveport : Option Nat := none)
    (host : Option String := none) (root : Option String := none)
    (debug : Option Bool := none) (restart_delay : Nat := 2) :
    ServerState κ × List (ListenerM ω) :=
  let host2 :=
    match host with
    | none => "0.0.0.0"
    | some h => if h = "" then "0.0.0.0" else h
  let st2 :=
    match root with
    | some r => { st with root := some r }
    | none => st
  let listeners := application st.appSet webHandlers port host2 liveport debug
  let st3 :=
    { st2 with watcher :=
        { st2.watcher with changes :=
            st2.watcher.changes ++ [("__livereload__", restart_delay)] } }
  (st3, listeners)

/-! ## The polling cycle (spec-modelled) -/

/-- Is this delay the `'forever'` policy? -/
def isForever : Option Delay → Bool
  | some Delay.forever => true
  | _ => false

/-- Modelled from the spec (§4.3 Emit): the numeric delay of a
non-`forever` entry — 0 for `immediate` (and for the `None` default),
N for `N seconds`. -/
def delayNum : Option Delay → Nat
  | some (Delay.seconds n) => n
  | _ => 0

/-- The result of one polling cycle: the tasks that ran, each paired
with its success flag, and the emitted change event (changed paths and
aggregated delay), if any. -/
structure CycleResult (κ : Type) where
  tasksRun : List (TaskV κ × Bool)
  event : Option (List String × Nat)
  deriving DecidableEq

/-- The entries whose pattern matchesP at least one changed path;
`matchesP` abstracts the glob/directory expansion of §4.3 Scan. -/
def triggeredEntries (entries : List (WatchEntry κ)) (changed : List String)
    (matchesP : String → String → Bool) : List (WatchEntry κ) :=
  entries.filter fun e => changed.any fun p => matchesP e.pattern p

/-- Modelled from the spec (§4.3, the watcher module is not among the
sources): one polling cycle over the registry.  Every triggered
entry's task is invoked (`result` abstracts whether each invocation
succeeds); then, if at least one triggered entry has a non-`forever`
delay, a change event is emitted carrying the changed paths and the
minimum numeric delay among the non-`forever` entries; if all
triggered entries are `forever`, no event is emitted. -/
def runCycle (entries : List (WatchEntry κ)) (changed : List String)
    (matchesP : String → String → Bool) (result : TaskV κ → Bool) :
    CycleResult κ :=
  let trig := triggeredEntries entries changed matchesP
  let tasks := trig.filterMap fun e => e.task
  let outcomes := tasks.map fun t => (t, result t)
  let nonForever := trig.filter fun e => ! isForever e.delay
  let ev : Option (List String × Nat) :=
    match nonForever with
    | [] => none
    | e :: es =>
      some (changed, es.foldl (fun acc x => Nat.min acc (delayNum x.delay))
        (delayNum e.delay))
  ⟨outcomes, ev⟩

/-! ## Helper lemmas about the transform -/

theorem countHeadEnd_nil : countHeadEnd [] = 0 := by
  rw [countHeadEnd.eq_def]

theorem countHeadEnd_cons (a : Nat) (rest : List Nat) :
    countHeadEnd (a :: rest) =
      if headEnd.isPrefixOf (a :: rest) then countHeadEnd (rest.drop 6) + 1
      else countHeadEnd rest := by
  rw [countHeadEnd.eq_def]

theorem pyReplace_nil (new : List Nat) : pyReplace new [] = [] := by
  rw [pyReplace.eq_def]

theorem pyReplace_cons (new : List Nat) (a : Nat) (rest : List Nat) :
    pyReplace new (a :: rest) =
      if headEnd.isPrefixOf (a :: rest) then
        new ++ pyReplace new (rest.drop 6)
      else
        a :: pyReplace new rest := by
  rw [pyReplace.eq_def]

theorem hasHeadEnd_false_elim (a : Nat) (rest : List Nat)
    (h : hasHeadEnd (a :: rest) = false) :
    headEnd.isPrefixOf (a :: rest) = false ∧ hasHeadEnd rest = false := by
  simpa [hasHeadEnd] using h

theorem pyReplace_id_of_not_has (new : List Nat) (s : List Nat)
    (h : hasHeadEnd s = false) : pyReplace new s = s := by
  induction s with
  | nil => exact pyReplace_nil new
  | cons a rest ih =>
    have h2 := hasHeadEnd_false_elim a rest h
    rw [pyReplace_cons, if_neg (by simp [h2.1]), ih h2.2]

theorem countHeadEnd_zero_of_not_has (s : List Nat)
    (h : hasHeadEnd s = false) : countHeadEnd s = 0 := by
  induction s with
  | nil => exact countHeadEnd_nil
  | cons a rest ih =>
    have h2 := hasHeadEnd_false_elim a rest h
    rw [countHeadEnd_cons, if_neg (by simp [h2.1])]
    exact ih h2.2

theorem pyReplace_length_aux (script : List Nat) :
    ∀ n, ∀ s : List Nat, s.length ≤ n →
      (pyReplace (script ++ headEnd) s).length =
        s.length + script.length * countHeadEnd s := by
  intro n
  induction n with
  | zero =>
    intro s hsn
    have hnil : s = [] := List.eq_nil_of_length_eq_zero (Nat.le_zero.mp hsn)
    subst hnil
    simp [pyReplace_nil, countHeadEnd_nil]
  | succ n ih =>
    intro s hsn
    cases s with
    | nil => simp [pyReplace_nil, countHeadEnd_nil]
    | cons a rest =>
      simp only [List.length_cons] at hsn
      by_cases h : headEnd.isPrefixOf (a :: rest) = true
      · have hlen : 7 ≤ rest.length + 1 := by
          have h2 : headEnd <+: (a :: rest) := List.isPrefixOf_iff_prefix.mp h
          simpa [headEnd] using h2.length_le
        have hdrop : (rest.drop 6).length ≤ n := by
          simp only [List.length_drop]
          omega
        rw [pyReplace_cons, countHeadEnd_cons, if_pos h, if_pos h]
        rw [List.length_append, List.length_append,
          ih (rest.drop 6) hdrop, Nat.mul_add, Nat.mul_one]
        have h7 : (headEnd : List Nat).length = 7 := rfl
        rw [h7]
        simp only [List.length_cons, List.length_drop]
        omega
      · rw [pyReplace_cons, countHeadEnd_cons, if_neg h, if_neg h]
        simp only [List.length_cons]
        rw [ih rest (by omega)]
        omega

theorem pyReplace_length (script : List Nat) (s : List Nat) :
    (pyReplace (script ++ headEnd) s).length =
      s.length + script.length * countHeadEnd s :=
  pyReplace_length_aux script s.length s le_rfl

/-- C10: for every chunk given to the script-injecting output
transform, the status code is returned unchanged and the chunk becomes
the marker-replacement of the input (which is the input itself when
the marker `</head>` does not occur); the resulting chunk grows by one
script length per replaced occurrence, while a present Content-Length
header grows by exactly one script length when the marker occurs at
all (and is untouched otherwise); all other headers are unchanged. -/
theorem C10_transform_first_chunk (script : List Nat) (status : Nat)
    (hdrs : RespHeaders) (chunk : List Nat) (fin : Bool) :
    (transform_first_chunk script status hdrs chunk fin).1 = status ∧
    (transform_first_chunk script status hdrs chunk fin).2.2 =
      pyReplace (script ++ headEnd) chunk ∧
    ((transform_first_chunk script status hdrs chunk fin).2.2).length =
      chunk.length + script.length * countHeadEnd chunk ∧
    (transform_first_chunk script status hdrs chunk fin).2.1.contentLength =
      (if hasHeadEnd chunk then
        hdrs.contentLength.map (fun n => n + script.length)
       else hdrs.contentLength) ∧
    (transform_first_chunk script status hdrs chunk fin).2.1.rest =
      hdrs.rest := by
  by_cases h : hasHeadEnd chunk
  · have e2 : (transform_first_chunk script status hdrs chunk fin).2.2 =
        pyReplace (script ++ headEnd) chunk := by
      simp [transform_first_chunk, h]
    refine ⟨by simp [transform_first_chunk, h], e2, ?_, ?_, ?_⟩
    · rw [e2]
      exact pyReplace_length script chunk
    · rw [if_pos h]
      cases hcl : hdrs.contentLength <;> simp [transform_first_chunk, h, hcl]
    · cases hcl : hdrs.contentLength <;> simp [transform_first_chunk, h, hcl]
  · have hf : hasHeadEnd chunk = false := by simpa using h
    have hz := countHeadEnd_zero_of_not_has chunk hf
    have e2 : (transform_first_chunk script status hdrs chunk fin).2.2 =
        chunk := by
      simp [transform_first_chunk, h]
    refine ⟨by simp [transform_first_chunk, h], ?_, ?_, ?_, ?_⟩
    · rw [e2, pyReplace_id_of_not_has _ chunk hf]
    · rw [e2, hz]
      simp
    · rw [if_neg h]
      simp [transform_first_chunk, h]
    · simp [transform_first_chunk, h]

/-! ## Helper lemmas about the file system and the task runner -/

theorem readFile_setFile (fs : FS) (p v : String) :
    (fs.setFile p v).readFile p = some v := by
  simp [FS.setFile, FS.readFile, List.find?]

theorem mem_parentChain_self (n : Nat) (d : String) (hd : d ≠ "") :
    d ∈ parentChain (n + 1) d := by
  simp only [parentChain]
  rw [if_neg hd]
  by_cases h : dirname d = d
  · rw [if_pos h]
    exact List.mem_singleton_self d
  · rw [if_neg h]
    exact List.mem_cons_self d _

theorem isdir_makedirs_self (fs : FS) (d : String) (hd : d ≠ "") :
    (fs.makedirs d).isdir d = true := by
  have hm := mem_parentChain_self d.length d hd
  simp only [FS.makedirs, FS.isdir]
  rw [List.contains_eq_any_beq]
  simp [List.any_eq_true]
  exact Or.inl hm

theorem shell_fs_eq (cmd : CmdArg) (o mode : String) (cwd : Option String)
    (b : Bool) (fs : FS) (ho : o ≠ "") :
    (shell cmd (some o) mode cwd b fs).2 =
      if dirname o ≠ "" ∧ ¬ fs.isdir (dirname o) then
        fs.makedirs (dirname o)
      else fs := by
  simp only [shell]
  rw [if_neg ho]
  split <;> rename_i hc <;> simp [hc]

theorem shell_output_eq (cmd : CmdArg) (o mode : String) (cwd : Option String)
    (b : Bool) (fs : FS) (ho : o ≠ "") :
    ((shell cmd (some o) mode cwd b fs).1).output = o := by
  simp only [shell]
  rw [if_neg ho]
  split <;> rfl

/-- C2: if the spawned process cannot be started (`Popen` raises an
`OSError`), invoking the task logs the failure, logs the hint that the
named executable (the command head) may not be installed when the
error is `ENOENT` (the executable-not-found case of the claim),
returns the error object as its result, and neither raises nor
touches the file system. -/
theorem C2_run_shell_spawn_failure (cfg : TaskCfg) (fs : FS) (e : OSErr) :
    (run_shell cfg (SpawnResult.oserror e) fs).1 =
      Except.ok (RunRet.errObj e) ∧
    (run_shell cfg (SpawnResult.oserror e) fs).2.1 = fs ∧
    LogEntry.oserrorLogged e.errno ∈
      (run_shell cfg (SpawnResult.oserror e) fs).2.2 ∧
    (e.errno = ENOENT →
      LogEntry.notInstalledHint (cmdHead cfg.cmd) ∈
        (run_shell cfg (SpawnResult.oserror e) fs).2.2) := by
  refine ⟨rfl, rfl, ?_, ?_⟩
  · by_cases h : e.errno = ENOENT <;> simp [run_shell, h]
  · intro h
    simp [run_shell, h]

/-- C2 witness: a concrete not-found spawn failure (errno 2) of a
`lessc` task returns the error, leaves the file system alone, and logs
both the failure and the hint naming `lessc`. -/
theorem C2_witness :
    (run_shell ⟨CmdArg.list ["lessc", "style.less"], devNull, "w", none, false⟩
        (SpawnResult.oserror ⟨2⟩) ⟨[], []⟩).1 =
      Except.ok (RunRet.errObj ⟨2⟩) ∧
    (run_shell ⟨CmdArg.list ["lessc", "style.less"], devNull, "w", none, false⟩
        (SpawnResult.oserror ⟨2⟩) ⟨[], []⟩).2.1 = (⟨[], []⟩ : FS) ∧
    LogEntry.oserrorLogged 2 ∈
      (run_shell ⟨CmdArg.list ["lessc", "style.less"], devNull, "w", none, false⟩
        (SpawnResult.oserror ⟨2⟩) ⟨[], []⟩).2.2 ∧
    LogEntry.notInstalledHint "lessc" ∈
      (run_shell ⟨CmdArg.list ["lessc", "style.less"], devNull, "w", none, false⟩
        (SpawnResult.oserror ⟨2⟩) ⟨[], []⟩).2.2 := by
  have h := C2_run_shell_spawn_failure
    ⟨CmdArg.list ["lessc", "style.less"], devNull, "w", none, false⟩
    ⟨[], []⟩ ⟨2⟩
  exact ⟨h.1, h.2.1, h.2.2.1, h.2.2.2 rfl⟩

/-- C3: when the spawned process writes non-empty standard error
output, invoking the task logs exactly that output as an error and
returns it as a failure result, whatever the exit status was
(including zero), without raising and without touching the file
system. -/
theorem C3_run_shell_stderr (cfg : TaskCfg) (fs : FS)
    (stdout stderr : String) (rc : Int) (h : stderr ≠ "") :
    (run_shell cfg (SpawnResult.ran stdout stderr rc) fs).1 =
      Except.ok (RunRet.errOutput stderr) ∧
    (run_shell cfg (SpawnResult.ran stdout stderr rc) fs).2.1 = fs ∧
    (run_shell cfg (SpawnResult.ran stdout stderr rc) fs).2.2 =
      [LogEntry.stderrLogged stderr] := by
  refine ⟨?_, ?_, ?_⟩ <;> simp [run_shell, h]

/-- C3 witness: a concrete run that exits with status zero but writes
"boom" to stderr is treated as failed: the stderr is returned and
logged, and nothing is written. -/
theorem C3_witness :
    (run_shell ⟨CmdArg.list ["make"], devNull, "w", none, false⟩
        (SpawnResult.ran "out" "boom" 0) ⟨[], []⟩).1 =
      Except.ok (RunRet.errOutput "boom") ∧
    (run_shell ⟨CmdArg.list ["make"], devNull, "w", none, false⟩
        (SpawnResult.ran "out" "boom" 0) ⟨[], []⟩).2.1 = (⟨[], []⟩ : FS) ∧
    (run_shell ⟨CmdArg.list ["make"], devNull, "w", none, false⟩
        (SpawnResult.ran "out" "boom" 0) ⟨[], []⟩).2.2 =
      [LogEntry.stderrLogged "boom"] :=
  C3_run_shell_stderr ⟨CmdArg.list ["make"], devNull, "w", none, false⟩
    ⟨[], []⟩ "out" "boom" 0 (by decide)

/-- C9: when the spawned process produces non-empty standard error
output, the configured output file is not written at all: its contents
after the invocation are its contents before. -/
theorem C9_no_write_on_stderr (cfg : TaskCfg) (fs : FS)
    (stdout stderr : String) (rc : Int) (h : stderr ≠ "") :
    ((run_shell cfg (SpawnResult.ran stdout stderr rc) fs).2.1).readFile
        cfg.output =
      fs.readFile cfg.output := by
  simp [run_shell, h]

/-- C9 witness: a task with output file `style.css` holding "old"
whose process writes stderr leaves "old" in place. -/
theorem C9_witness :
    ((run_shell ⟨CmdArg.list ["lessc"], "style.css", "w", none, false⟩
        (SpawnResult.ran "new" "err" 0)
        ⟨[], [("style.css", "old")]⟩).2.1).readFile "style.css" =
      FS.readFile ⟨[], [("style.css", "old")]⟩ "style.css" :=
  C9_no_write_on_stderr
    ⟨CmdArg.list ["lessc"], "style.css", "w", none, false⟩
    ⟨[], [("style.css", "old")]⟩ "new" "err" 0 (by decide)

/-- C4: a string command is tokenized by `shlex.split` unless the
run-via-system-shell flag is set, in which case it is kept verbatim; a
list command is never re-tokenized, whatever the flag. -/
theorem C4_shell_tokenization (s : String) (args : List String)
    (output : Option String) (mode : String) (cwd : Option String)
    (b : Bool) (fs : FS) :
    ((shell (CmdArg.str s) output mode cwd false fs).1).cmd =
      CmdArg.list (shlexSplit s) ∧
    ((shell (CmdArg.str s) output mode cwd true fs).1).cmd =
      CmdArg.str s ∧
    ((shell (CmdArg.list args) output mode cwd b fs).1).cmd =
      CmdArg.list args :=
  ⟨rfl, rfl, rfl⟩

/-- C5: for a task created with an output-file path configured, the
parent directory of the output file exists when the task is invoked
(`shell` created it if it was missing), and on a successful run
(process started, empty stderr) the invocation returns `None` without
raising and writes the captured stdout to the output file — replacing
its contents unless the mode flag is `"a"`, in which case it
appends. -/
theorem C5_output_file (cmd : CmdArg) (o mode : String) (cwd : Option String)
    (b : Bool) (fs : FS) (stdout : String) (rc : Int) (ho : o ≠ "") :
    ((shell cmd (some o) mode cwd b fs).1).output = o ∧
    (dirname o ≠ "" →
      ((shell cmd (some o) mode cwd b fs).2).isdir (dirname o) = true) ∧
    (run_shell (shell cmd (some o) mode cwd b fs).1
        (SpawnResult.ran stdout "" rc)
        (shell cmd (some o) mode cwd b fs).2).1 =
      Except.ok RunRet.retNone ∧
    ((run_shell (shell cmd (some o) mode cwd b fs).1
        (SpawnResult.ran stdout "" rc)
        (shell cmd (some o) mode cwd b fs).2).2.1).readFile o =
      some (if mode = "a" then
        ((((shell cmd (some o) mode cwd b fs).2).readFile o).getD "") ++ stdout
       else stdout) := by
  have hout := shell_output_eq cmd o mode cwd b fs ho
  have hfs := shell_fs_eq cmd o mode cwd b fs ho
  refine ⟨hout, ?_, ?_, ?_⟩
  · intro hd
    rw [hfs]
    by_cases hc : dirname o ≠ "" ∧ ¬ fs.isdir (dirname o)
    · rw [if_pos hc]
      exact isdir_makedirs_self fs (dirname o) hd
    · rw [if_neg hc]
      rcases not_and_or.mp hc with h1 | h2
      · exact absurd hd h1
      · simpa using h2
  · simp [run_shell]
  · have hmode : ((shell cmd (some o) mode cwd b fs).1).mode = mode := rfl
    simp only [run_shell, ne_eq, not_true_eq_false, if_false]
    rw [hout, hmode]
    by_cases hm : mode = "a"
    · rw [FS.writeFile, if_pos hm, if_pos hm, readFile_setFile]
    · rw [FS.writeFile, if_neg hm, if_neg hm, readFile_setFile]

/-- C5 witness: registering a task with output `build/style.css` on an
empty file system creates the `build` directory, and a successful run
writing "css" to stdout stores "css" in `build/style.css`. -/
theorem C5_witness :
    ((shell (CmdArg.str "lessc style.less") (some "build/style.css") "w"
        none false ⟨[], []⟩).1).output = "build/style.css" ∧
    ((shell (CmdArg.str "lessc style.less") (some "build/style.css") "w"
        none false ⟨[], []⟩).2).isdir "build" = true ∧
    (run_shell (shell (CmdArg.str "lessc style.less") (some "build/style.css")
          "w" none false ⟨[], []⟩).1
        (SpawnResult.ran "css" "" 0)
        (shell (CmdArg.str "lessc style.less") (some "build/style.css") "w"
          none false ⟨[], []⟩).2).1 = Except.ok RunRet.retNone ∧
    ((run_shell (shell (CmdArg.str "lessc style.less") (some "build/style.css")
          "w" none false ⟨[], []⟩).1
        (SpawnResult.ran "css" "" 0)
        (shell (CmdArg.str "lessc style.less") (some "build/style.css") "w"
          none false ⟨[], []⟩).2).2.1).readFile "build/style.css" =
      some "css" := by
  have h := C5_output_file (CmdArg.str "lessc style.less") "build/style.css"
    "w" none false ⟨[], []⟩ "css" 0 (by decide)
  refine ⟨h.1, ?_, h.2.2.1, ?_⟩
  · have h2 := h.2.1 (by decide)
    have hb : dirname "build/style.css" = "build" := by decide
    rw [hb] at h2
    exact h2
  · have h4 := h.2.2.2
    simpa using h4

/-! ## Claims about the server glue -/

/-- C6: `serve` self-registers the internal heartbeat record
`('__livereload__', restart_delay)` with the watcher by appending it
to the pending-change queue before the I/O loop starts; it is distinct
from any file-change record (its path is the reserved marker, not a
watched pattern), and the entry registry itself is untouched. -/
theorem C6_serve_heartbeat (st : ServerState κ) (web : List ω) (port : Nat)
    (liveport : Option Nat) (host : Option String) (root : Option String)
    (debug : Option Bool) (rd : Nat) :
    ((serve st web port liveport host root debug rd).1).watcher.changes =
      st.watcher.changes ++ [("__livereload__", rd)] ∧
    ("__livereload__", rd) ∈
      ((serve st web port liveport host root debug rd).1).watcher.changes ∧
    ((serve st web port liveport host root debug rd).1).watcher.entries =
      st.watcher.entries := by
  refine ⟨?_, ?_, ?_⟩ <;> (unfold serve; cases root <;> simp)

/-- C7: with no separate live port (liveport absent or equal to the
content port) `application` creates exactly one listening application
on the content port, bound to the host, whose routes are the three
reload-channel endpoints followed by the content handlers; with a
distinct live port it creates exactly two, the content handlers alone
on the content port and the reload-channel endpoints alone on the live
port, both bound to the host. -/
theorem C7_port_topology (appSet : Bool) (web : List ω) (port : Nat)
    (host : String) (liveport : Option Nat) (debug : Option Bool) :
    ((liveport = none ∨ liveport = some port) →
      (application appSet web port host liveport debug).length = 1 ∧
      ((application appSet web port host liveport debug).getD 0
          dfltListener).handlers = liveHandlers ++ web.map RouteK.web ∧
      ((application appSet web port host liveport debug).getD 0
          dfltListener).port = port ∧
      ((application appSet web port host liveport debug).getD 0
          dfltListener).address = host) ∧
    (∀ lp, liveport = some lp → lp ≠ port →
      (application appSet web port host liveport debug).length = 2 ∧
      ((application appSet web port host liveport debug).getD 0
          dfltListener).handlers = web.map RouteK.web ∧
      ((application appSet web port host liveport debug).getD 0
          dfltListener).port = port ∧
      ((application appSet web port host liveport debug).getD 0
          dfltListener).address = host ∧
      ((application appSet web port host liveport debug).getD 1
          dfltListener).handlers = liveHandlers ∧
      ((application appSet web port host liveport debug).getD 1
          dfltListener).port = lp ∧
      ((application appSet web port host liveport debug).getD 1
          dfltListener).address = host) := by
  constructor
  · intro h
    rcases h with h | h <;> subst h <;>
      refine ⟨?_, ?_, ?_, ?_⟩ <;> simp [application]
  · intro lp hlp hne
    subst hlp
    refine ⟨?_, ?_, ?_, ?_, ?_, ?_, ?_⟩ <;>
      simp [application, hne]

/-- C7 witness: concrete topologies — default liveport gives one
listener on 5500; liveport 35729 gives two listeners, the second on
35729 carrying the reload-channel routes. -/
theorem C7_witness :
    (application true ([7] : List Nat) 5500 "0.0.0.0" none none).length =
      1 ∧
    ((application true ([7] : List Nat) 5500 "0.0.0.0" none
        none).getD 0 dfltListener).port = 5500 ∧
    (application true ([7] : List Nat) 5500 "0.0.0.0" (some 35729)
        none).length = 2 ∧
    ((application true ([7] : List Nat) 5500 "0.0.0.0" (some 35729)
        none).getD 1 dfltListener).handlers = liveHandlers ∧
    ((application true ([7] : List Nat) 5500 "0.0.0.0" (some 35729)
        none).getD 1 dfltListener).port = 35729 := by
  have h1 := (C7_port_topology true ([7] : List Nat) 5500 "0.0.0.0"
    none none).1 (Or.inl rfl)
  have h2 := (C7_port_topology true ([7] : List Nat) 5500 "0.0.0.0"
    (some 35729) none).2 35729 rfl (by decide)
  exact ⟨h1.1, h1.2.2.1, h2.1, h2.2.2.2.2.1, h2.2.2.2.2.2.1⟩

/-- C8: `watch` resolves a string task once, at registration time,
into the shell runner `shell(func)` with all defaults (so the command
is already tokenized in the registered entry), registers a callable
as-is, and in either case appends exactly one entry to the watcher's
registry. -/
theorem C8_watch_registration (st : ServerState κ) (fs : FS) (path : String)
    (delay : Option Delay) (s : String) (f : κ) :
    ((BaseServer.watch st fs path
        (some (FuncArg.str s)) delay).1).watcher.entries =
      st.watcher.entries ++
        [⟨path, some (TaskV.shellTask
          (shell (CmdArg.str s) none "w" none false fs).1), delay⟩] ∧
    ((shell (CmdArg.str s) none "w" none false fs).1).cmd =
      CmdArg.list (shlexSplit s) ∧
    (BaseServer.watch st fs path (some (FuncArg.str s)) delay).2 = fs ∧
    ((BaseServer.watch st fs path
        (some (FuncArg.call f)) delay).1).watcher.entries =
      st.watcher.entries ++ [⟨path, some (TaskV.callback f), delay⟩] ∧
    (BaseServer.watch st fs path (some (FuncArg.call f)) delay).2 = fs :=
  ⟨rfl, rfl, rfl, rfl, rfl⟩

/-! ## Claim about the polling cycle -/

theorem runCycle_event_eq (entries1 entries2 : List (WatchEntry κ))
    (changed : List String) (m : String → String → Bool)
    (r1 r2 : TaskV κ → Bool)
    (h : (triggeredEntries entries1 changed m).filter
          (fun e => ! isForever e.delay) =
        (triggeredEntries entries2 changed m).filter
          (fun e => ! isForever e.delay)) :
    (runCycle entries1 changed m r1).event =
      (runCycle entries2 changed m r2).event := by
  simp only [runCycle]
  rw [h]

theorem filter_comm_entries (l : List (WatchEntry κ))
    (p q : WatchEntry κ → Bool) :
    (l.filter p).filter q = (l.filter q).filter p := by
  rw [List.filter_filter, List.filter_filter]
  exact List.filter_congr fun a _ => Bool.and_comm (q a) (p a)

theorem filter_idem_entries (l : List (WatchEntry κ))
    (q : WatchEntry κ → Bool) :
    (l.filter q).filter q = l.filter q := by
  rw [List.filter_filter]
  exact List.filter_congr fun a _ => Bool.and_self (q a)

/-- C1: a registered entry with delay `forever` that matches a changed
path has its task run in the polling cycle, yet contributes nothing to
broadcasting: the emitted event is exactly the event of the registry
with all `forever` entries removed, and it is independent of whether
any task invocation succeeds or fails. -/
theorem C1_forever_never_broadcasts (entries : List (WatchEntry κ))
    (changed : List String) (m : String → String → Bool)
    (r r2 : TaskV κ → Bool) (e : WatchEntry κ) (t : TaskV κ)
    (he : e ∈ entries) (_hf : e.delay = some Delay.forever)
    (hm : changed.any (fun p => m e.pattern p) = true)
    (ht : e.task = some t) :
    (t, r t) ∈ (runCycle entries changed m r).tasksRun ∧
    (runCycle entries changed m r).event =
      (runCycle (entries.filter fun x => ! isForever x.delay)
        changed m r).event ∧
    (runCycle entries changed m r).event =
      (runCycle entries changed m r2).event := by
  have htrig : e ∈ triggeredEntries entries changed m :=
    List.mem_filter.mpr ⟨he, hm⟩
  refine ⟨?_, ?_, ?_⟩
  · simp only [runCycle]
    exact List.mem_map.mpr
      ⟨t, List.mem_filterMap.mpr ⟨e, htrig, ht⟩, rfl⟩
  · apply runCycle_event_eq
    simp only [triggeredEntries]
    rw [filter_comm_entries entries (fun x => ! isForever x.delay)
      (fun x => changed.any fun p => m x.pattern p),
      filter_idem_entries]
  · exact runCycle_event_eq entries entries changed m r r2 rfl

/-- C1 witness: a concrete registry with a matching `forever` entry
(whose callback is task 1) and a matching 3-second entry — the
`forever` entry's task runs, the event equals the event of the
registry without the `forever` entry, and flipping every task outcome
from success to failure leaves the event unchanged. -/
theorem C1_witness :
    (TaskV.callback 1, true) ∈
      (runCycle
        [⟨"a.txt", some (TaskV.callback (1 : Nat)), some Delay.forever⟩,
         ⟨"a.txt", some (TaskV.callback 2), some (Delay.seconds 3)⟩]
        ["a.txt"] (fun p q => p == q) (fun _ => true)).tasksRun ∧
    (runCycle
        [⟨"a.txt", some (TaskV.callback (1 : Nat)), some Delay.forever⟩,
         ⟨"a.txt", some (TaskV.callback 2), some (Delay.seconds 3)⟩]
        ["a.txt"] (fun p q => p == q) (fun _ => true)).event =
      (runCycle
        ([⟨"a.txt", some (TaskV.callback (1 : Nat)), some Delay.forever⟩,
          ⟨"a.txt", some (TaskV.callback 2), some (Delay.seconds 3)⟩].filter
            fun x => ! isForever x.delay)
        ["a.txt"] (fun p q => p == q) (fun _ => true)).event ∧
    (runCycle
        [⟨"a.txt", some (TaskV.callback (1 : Nat)), some Delay.forever⟩,
         ⟨"a.txt", some (TaskV.callback 2), some (Delay.seconds 3)⟩]
        ["a.txt"] (fun p q => p == q) (fun _ => true)).event =
      (runCycle
        [⟨"a.txt", some (TaskV.callback (1 : Nat)), some Delay.forever⟩,
         ⟨"a.txt", some (TaskV.callback 2), some (Delay.seconds 3)⟩]
        ["a.txt"] (fun p q => p == q) (fun _ => false)).event :=
  C1_forever_never_broadcasts
    [⟨"a.txt", some (TaskV.callback (1 : Nat)), some Delay.forever⟩,
     ⟨"a.txt", some (TaskV.callback 2), some (Delay.seconds 3)⟩]
    ["a.txt"] (fun p q => p == q) (fun _ => true) (fun _ => false)
    ⟨"a.txt", some (TaskV.callback 1), some Delay.forever⟩
    (TaskV.callback 1) (by decide) rfl (by decide) rfl
